import Mathlib

/-!
Shallow embedding of the Bylins MUD automapper core
(`src/scripts/examples/automapper.py`).

The mutable module-level state (`pending_room_id`, `pending_room_name`,
`pending_exits`, `last_direction`) is modelled as an explicit `MapperState`
record threaded through the trigger callbacks.  Calls on the host `api`
object are modelled in two parts: responses the script inspects are supplied
by an `Api` record of pure response functions, and every call the script
issues (queries, mutations, `log`, `echo`) is recorded in an ordered `Effect`
trace that each callback returns alongside the updated state.

Python truthiness on the optional string / list fields (`if not x`) is
modelled explicitly (`None` and the empty string / empty list are falsy).
Python `int(...)` is modelled for ASCII decimal literals with optional sign
and surrounding whitespace; `str.lower()` is modelled for ASCII and the
Russian alphabet, which covers every string the script lowercases.
-/

namespace Automapper

/-- A room handle as returned by `api.getCurrentRoom`: the script only ever
reads its `"id"` entry via `current.get("id")` (which may itself be absent,
hence `Option`). -/
structure Room where
  id : Option String
deriving Repr, DecidableEq

/-- One call issued on the host `api` object, in program order.  `log` and
`echo` are the diagnostic sinks; all other constructors are Map Store
calls. -/
inductive Effect where
  | log (msg : String)
  | echo (msg : String)
  | getCurrentRoom
  | searchRooms (id : String)
  | createRoom (id name : String) (x y z : Int)
  | setRoomZone (id zone : String)
  | setCurrentRoom (id : String)
  | addUnexploredExits (id : String) (exits : List String)
  | handleMovement (dir name : String) (exits : List String) (fromId : String)
deriving Repr, DecidableEq

/-- Store calls are every api call except the two diagnostic sinks. -/
def Effect.isStoreCall : Effect → Bool
  | .log _ => false
  | .echo _ => false
  | _ => true

/-- The sub-trace of Map Store calls of an effect trace. -/
def storeCalls (l : List Effect) : List Effect :=
  l.filter (fun e => e.isStoreCall)

/-- Responses of the host api that the script inspects.  `debugOn` models the
`automapper_debug` variable read by `is_debug()`. -/
structure Api where
  debugOn : Bool
  getCurrentRoom : Option Room
  searchRooms : String → Option (List Room)
  createRoom : String → String → Int → Int → Int → Bool
  handleMovement : String → String → List String → String → Option Room

/-- The four module-level accumulator variables of the script. -/
structure MapperState where
  pending_room_id : Option String
  pending_room_name : Option String
  pending_exits : Option (List String)
  last_direction : Option String
deriving Repr, DecidableEq

/-- The post-reset accumulator (all four globals set to `None`). -/
def emptyState : MapperState := ⟨none, none, none, none⟩

/-- Python truthiness of an optional string: `None` and `""` are falsy. -/
def truthyS : Option String → Bool
  | none => false
  | some s => if s = "" then false else true

/-- Python truthiness of an optional list: `None` and `[]` are falsy. -/
def truthyL : Option (List String) → Bool
  | none => false
  | some l => if l = [] then false else true

/-- Python `str(...)` on an optional string (`str(None) = "None"`). -/
def pyStrO : Option String → String
  | none => "None"
  | some s => s

/-- Python `repr(...)` on an optional string, used only inside one log
message; quoting is modelled, escape sequences inside the string are not. -/
def pyReprO : Option String → String
  | none => "None"
  | some s => "'" ++ s ++ "'"

/-- Whitespace characters stripped by Python `str.strip()`. -/
def isPyWs (c : Char) : Bool :=
  c = ' ' || c = '\t' || c = '\n' || c = '\x0d' || c = '\x0b' || c = '\x0c'

/-- Python `str.strip()`: drop whitespace from both ends. -/
def pyStrip (s : String) : String :=
  ⟨((s.data.dropWhile isPyWs).reverse.dropWhile isPyWs).reverse⟩

/-- Python `int(s)` for base-10 literals: optional surrounding whitespace,
optional sign, at least one ASCII digit; `none` models the `ValueError`
caught by the script's bare `except`. -/
def pyInt (s : String) : Option Int :=
  let t := (pyStrip s).data
  let signDigits : Int × List Char :=
    match t with
    | '-' :: rest => (-1, rest)
    | '+' :: rest => (1, rest)
    | l => (1, l)
  if signDigits.2 ≠ [] ∧ signDigits.2.all Char.isDigit then
    some (signDigits.1 *
      (signDigits.2.foldl (fun acc c => acc * 10 + (c.toNat - '0'.toNat)) 0 : Nat))
  else none

/-- Python `str.lower()` restricted to ASCII letters and the Russian
alphabet (the only alphabets appearing in the script's inputs). -/
def pyLowerChar (c : Char) : Char :=
  if 'A' ≤ c ∧ c ≤ 'Z' then Char.ofNat (c.toNat + 32)
  else if 0x410 ≤ c.toNat ∧ c.toNat ≤ 0x42F then Char.ofNat (c.toNat + 0x20)
  else if c.toNat = 0x401 then Char.ofNat 0x451
  else c

/-- Python `str.lower()` on a whole string. -/
def pyLower (s : String) : String :=
  ⟨s.data.map pyLowerChar⟩

/-- The `exit_chars` dict: exit glyph → direction string. -/
def exit_chars (c : Char) : Option String :=
  if c = 'С' || c = 'с' then some "north"
  else if c = 'Ю' || c = 'ю' then some "south"
  else if c = 'З' || c = 'з' then some "west"
  else if c = 'В' || c = 'в' then some "east"
  else if c = '^' then some "up"
  else if c = 'v' then some "down"
  else none

/-- The `directions` dict: lower-cased movement word → direction string. -/
def directions (w : String) : Option String :=
  if w = "север" then some "north"
  else if w = "юг" then some "south"
  else if w = "запад" then some "west"
  else if w = "восток" then some "east"
  else if w = "вверх" then some "up"
  else if w = "вниз" then some "down"
  else none

/-- The zone computation of `try_create_room` (lines 65-70):
`zone_id = int(room_id) // 100`, with the bare `except` turning any parse
failure into `zone_id = 0`.  `Int.fdiv` is Python's floor division `//`. -/
def zoneId (room_id : String) : Int :=
  match pyInt room_id with
  | some n => Int.fdiv n 100
  | none => 0

/-- `debug(msg)`: echoes `"[Mapper DEBUG] " + msg` only when the debug flag
is on. -/
def debugE (api : Api) (msg : String) : List Effect :=
  if api.debugOn then [Effect.echo ("[Mapper DEBUG] " ++ msg)] else []

/-- The `current_id` computation of lines 84-90: `api.getCurrentRoom()`
followed by `current.get("id")`, with the `try/except` collapsing any
failure to `None`. -/
def currentIdOf (api : Api) : Option String :=
  match api.getCurrentRoom with
  | some r => r.id
  | none => none

/-- `len(rooms) if rooms else 0` (line 96). -/
def roomsCount : Option (List Room) → Nat
  | some l => l.length
  | none => 0

/-- The string interpolated into `try_create_room`'s entry log:
`str(len(pending_exits) if pending_exits else "nil")`. -/
def exitsLenStr : Option (List String) → String
  | some l => if l = [] then "nil" else toString l.length
  | none => "nil"

/-- The unconditional entry log message of `try_create_room` (lines 46-49). -/
def tcrLog (s : MapperState) : String :=
  "[PY] try_create_room: room_id=" ++ pyStrO s.pending_room_id ++
  " room_name=" ++ pyStrO s.pending_room_name ++
  " exits=" ++ exitsLenStr s.pending_exits ++
  " direction=" ++ pyStrO s.last_direction

/-- `try_create_room` (lines 43-123).  Returns the updated accumulator and
the ordered trace of api calls issued.  The early returns of the three
truthiness guards keep the state unchanged; in the complete case the body
branches on `last_direction` and the api responses exactly as the source
does, and the accumulator is unconditionally reset at the end
(lines 119-123). -/
def try_create_room (api : Api) (s : MapperState) : MapperState × List Effect :=
  if truthyS s.pending_room_id = false then
    (s, Effect.log (tcrLog s) :: debugE api "try_create_room: no room_id")
  else if truthyS s.pending_room_name = false then
    (s, Effect.log (tcrLog s) :: debugE api "try_create_room: no room_name")
  else if truthyL s.pending_exits = false then
    (s, Effect.log (tcrLog s) :: debugE api "try_create_room: no exits")
  else
    let room_id := s.pending_room_id.getD ""
    let room_name := s.pending_room_name.getD ""
    let exits := s.pending_exits.getD []
    let body : List Effect :=
      match s.last_direction with
      | some direction =>
          Effect.log ("[PY] handle_movement: dir=" ++ direction ++ " exits=" ++
              String.intercalate "," exits ++ " roomId=" ++ room_id) ::
          Effect.handleMovement direction room_name exits room_id ::
          (match api.handleMovement direction room_name exits room_id with
           | some _ =>
              [Effect.setRoomZone room_id ("zone_" ++ toString (zoneId room_id)),
               Effect.echo ("[Mapper] " ++ room_name ++ " [" ++ room_id ++ "]")]
           | none => debugE api "handleMovement returned None")
      | none =>
          Effect.log "[PY] Initial room case" ::
          Effect.getCurrentRoom ::
          Effect.log ("[PY] current_id=" ++ pyStrO (currentIdOf api) ++
              " room_id=" ++ room_id) ::
          (if currentIdOf api ≠ some room_id then
            Effect.searchRooms room_id ::
            Effect.log ("[PY] search_rooms(" ++ room_id ++ ") found " ++
                toString (roomsCount (api.searchRooms room_id))) ::
            (if roomsCount (api.searchRooms room_id) = 0 then
              Effect.log ("[PY] Creating new room: " ++ room_id) ::
              Effect.createRoom room_id room_name 0 0 0 ::
              (if api.createRoom room_id room_name 0 0 0 = true then
                Effect.setRoomZone room_id ("zone_" ++ toString (zoneId room_id)) ::
                Effect.setCurrentRoom room_id ::
                ((if truthyL s.pending_exits = true ∧ 0 < exits.length then
                    [Effect.addUnexploredExits room_id exits,
                     Effect.log ("[PY] Added exits: " ++ String.intercalate "," exits)]
                  else []) ++
                 [Effect.echo ("[Mapper] New: " ++ room_name ++ " [" ++ room_id ++ "]")])
              else
                [Effect.log "[PY] create_room returned false"])
            else
              Effect.log "[PY] Room exists, setting current" ::
              Effect.setCurrentRoom room_id ::
              (if truthyL s.pending_exits = true ∧ 0 < exits.length then
                [Effect.addUnexploredExits room_id exits,
                 Effect.log ("[PY] Updated exits: " ++ String.intercalate "," exits)]
               else []))
          else
            [Effect.log "[PY] current_id == room_id, skipping"])
    (emptyState, Effect.log (tcrLog s) :: body)

/-- The completeness condition checked by the three guards of
`try_create_room`: `room_id`, `room_name` and `exits` all truthy. -/
def is_complete (s : MapperState) : Bool :=
  truthyS s.pending_room_id && truthyS s.pending_room_name &&
    truthyL s.pending_exits

/-- The entry log message of `on_room_trigger` (line 130). -/
def roomCbLog (g1 g2 : Option String) : String :=
  "[PY] room callback, groups[1]=" ++ pyStrO g1 ++ " groups[2]=" ++ pyStrO g2

/-- `on_room_trigger` (lines 127-148) with the two captured groups
(`groups.get(1)`, `groups.get(2)`), which may be absent. -/
def on_room_trigger (api : Api) (s : MapperState) (g1 g2 : Option String) :
    MapperState × List Effect :=
  let e0 := [Effect.log (roomCbLog g1 g2)]
  if truthyS g1 = false || truthyS g2 = false then (s, e0)
  else
    let trimmed := pyStrip (g1.getD "")
    if trimmed = "" then (s, e0)
    else
      let first := trimmed.data.headD ' '
      if first = ':' || first = '|' || first = '-' || first = ' ' then (s, e0)
      else
        let s1 := { s with pending_room_name := some trimmed,
                           pending_room_id := g2 }
        let r := try_create_room api s1
        (r.1, e0 ++ r.2)

/-- One iteration of the exit-glyph decoding loop of `on_exits_trigger`
(lines 167-175): the accumulator is the pair (`exits` so far,
`in_brackets`).  `(` sets and `)` clears the flag (which is never read);
every other character is looked up in `exit_chars`, and a hit is appended
unless already present. -/
def exitStep (acc : List String × Bool) (c : Char) : List String × Bool :=
  if c = '(' then (acc.1, true)
  else if c = ')' then (acc.1, false)
  else
    match exit_chars c with
    | some direction =>
        if acc.1.contains direction then acc else (acc.1 ++ [direction], acc.2)
    | none => acc

/-- The exit-glyph decoding loop of `on_exits_trigger` (lines 163-175):
left-to-right scan starting from an empty list with the flag down. -/
def decode_exits (exits_str : String) : List String :=
  (exits_str.data.foldl exitStep ([], false)).1

/-- `on_exits_trigger` (lines 154-179) with the captured group
`groups.get(1)`. -/
def on_exits_trigger (api : Api) (s : MapperState) (g1 : Option String) :
    MapperState × List Effect :=
  let e0 := [Effect.log ("[PY] exits callback, groups[1]=" ++ pyReprO g1)]
  if truthyS g1 = false then (s, e0)
  else
    let exits := decode_exits (g1.getD "")
    let e1 := e0 ++ debugE api ("exits: " ++ String.intercalate "," exits)
    let s1 := { s with pending_exits := some exits }
    let r := try_create_room api s1
    (r.1, e1 ++ r.2)

/-- `on_movement_trigger` (lines 185-199) with the captured group
`groups.get(1)`.  On a phrase-table hit it records the direction and clears
the three room fields; it does not invoke `try_create_room`. -/
def on_movement_trigger (s : MapperState) (g1 : Option String) :
    MapperState × List Effect :=
  let e0 := [Effect.log ("[PY] movement callback, dir=" ++ pyStrO g1)]
  if truthyS g1 = false then (s, e0)
  else
    match directions (pyLower (g1.getD "")) with
    | some direction =>
        ({ pending_room_id := none, pending_room_name := none,
           pending_exits := none, last_direction := some direction }, e0)
    | none => (s, e0)

/-! ### Helper lemmas -/

lemma storeCalls_nil : storeCalls [] = [] := rfl

lemma storeCalls_cons (e : Effect) (l : List Effect) :
    storeCalls (e :: l) =
      if e.isStoreCall then e :: storeCalls l else storeCalls l := by
  simp [storeCalls, List.filter]
  split <;> simp_all

lemma storeCalls_append (l1 l2 : List Effect) :
    storeCalls (l1 ++ l2) = storeCalls l1 ++ storeCalls l2 := by
  simp [storeCalls, List.filter_append]

lemma storeCalls_debugE (api : Api) (m : String) :
    storeCalls (debugE api m) = [] := by
  unfold debugE
  split <;> simp [storeCalls, Effect.isStoreCall]

/-- A quiet api: debug off, no current room, empty search results, create
and movement both succeed. -/
def apiQuiet : Api :=
  { debugOn := false
    getCurrentRoom := none
    searchRooms := fun _ => some []
    createRoom := fun _ _ _ _ _ => true
    handleMovement := fun _ _ _ _ => some ⟨some "1"⟩ }

/-! ### Claims -/

/-- Claim C4: after every invocation of `try_create_room` in which the
completeness check passes, all four accumulator fields are reset to empty
before the engine returns, in every branch and regardless of store call
results. -/
theorem C4_theorem (api : Api) (s : MapperState) (h : is_complete s = true) :
    (try_create_room api s).1 = emptyState := by
  unfold is_complete at h
  simp only [Bool.and_eq_true] at h
  obtain ⟨⟨ha, hb⟩, hc⟩ := h
  unfold try_create_room
  simp [ha, hb, hc]

theorem C4_witness :
    (try_create_room apiQuiet ⟨some "5001", some "Дом", some ["north"], none⟩).1
      = emptyState :=
  C4_theorem apiQuiet ⟨some "5001", some "Дом", some ["north"], none⟩ (by decide)

/-- A quiet api whose current room is room "5001". -/
def apiAt5001 : Api :=
  { apiQuiet with getCurrentRoom := some ⟨some "5001"⟩ }

/-- Claim C8: for a complete observation with no pending direction whose
observed `room_id` equals the store's current room id, `try_create_room`
issues no store mutation — the current-room query is the only store call —
and the accumulator is reset. -/
theorem C8_theorem (api : Api) (s : MapperState) (id nm : String)
    (ex : List String)
    (h1 : s.pending_room_id = some id) (h2 : s.pending_room_name = some nm)
    (h3 : s.pending_exits = some ex) (hd : s.last_direction = none)
    (hne1 : id ≠ "") (hne2 : nm ≠ "") (hne3 : ex ≠ [])
    (hcur : currentIdOf api = some id) :
    storeCalls (try_create_room api s).2 = [Effect.getCurrentRoom] ∧
    (try_create_room api s).1 = emptyState := by
  unfold try_create_room
  simp [h1, h2, h3, hd, hne1, hne2, hne3, hcur, truthyS, truthyL,
    storeCalls, List.filter, Effect.isStoreCall]

theorem C8_witness :
    storeCalls (try_create_room apiAt5001
        ⟨some "5001", some "Дом", some ["north"], none⟩).2
      = [Effect.getCurrentRoom] ∧
    (try_create_room apiAt5001
        ⟨some "5001", some "Дом", some ["north"], none⟩).1 = emptyState :=
  C8_theorem apiAt5001 ⟨some "5001", some "Дом", some ["north"], none⟩
    "5001" "Дом" ["north"] rfl rfl rfl rfl (by decide) (by decide)
    (by decide) rfl

/-- Claim C2: for a complete observation with `pending_direction = d`,
`try_create_room` makes exactly one store call `handleMovement(d, room_name,
exits, room_id)` followed, exactly when that call returns a result, by one
`setRoomZone` with the derived zone label; on success the full trace ends
with the user-visible confirmation echo, and on failure the call is followed
by the debug diagnostic only — no retry, no further store call. -/
theorem C2_theorem (api : Api) (s : MapperState) (d id nm : String)
    (ex : List String)
    (h1 : s.pending_room_id = some id) (h2 : s.pending_room_name = some nm)
    (h3 : s.pending_exits = some ex) (hd : s.last_direction = some d)
    (hne1 : id ≠ "") (hne2 : nm ≠ "") (hne3 : ex ≠ []) :
    storeCalls (try_create_room api s).2 =
      Effect.handleMovement d nm ex id ::
        (match api.handleMovement d nm ex id with
         | some _ => [Effect.setRoomZone id ("zone_" ++ toString (zoneId id))]
         | none => []) ∧
    (∀ r, api.handleMovement d nm ex id = some r →
      (try_create_room api s).2 =
        [Effect.log (tcrLog s),
         Effect.log ("[PY] handle_movement: dir=" ++ d ++ " exits=" ++
            String.intercalate "," ex ++ " roomId=" ++ id),
         Effect.handleMovement d nm ex id,
         Effect.setRoomZone id ("zone_" ++ toString (zoneId id)),
         Effect.echo ("[Mapper] " ++ nm ++ " [" ++ id ++ "]")]) ∧
    (api.handleMovement d nm ex id = none →
      (try_create_room api s).2 =
        [Effect.log (tcrLog s),
         Effect.log ("[PY] handle_movement: dir=" ++ d ++ " exits=" ++
            String.intercalate "," ex ++ " roomId=" ++ id),
         Effect.handleMovement d nm ex id] ++
        debugE api "handleMovement returned None") := by
  cases hm : api.handleMovement d nm ex id <;>
    (unfold try_create_room
     simp [h1, h2, h3, hd, hne1, hne2, hne3, hm, truthyS, truthyL,
       storeCalls, List.filter, Effect.isStoreCall, storeCalls_debugE])
  intro a ha
  unfold debugE at ha
  split at ha <;> simp_all [Effect.isStoreCall]

theorem C2_witness :
    (try_create_room apiQuiet
        ⟨some "5001", some "Дом", some ["north"], some "north"⟩).2 =
      [Effect.log
         "[PY] try_create_room: room_id=5001 room_name=Дом exits=1 direction=north",
       Effect.log "[PY] handle_movement: dir=north exits=north roomId=5001",
       Effect.handleMovement "north" "Дом" ["north"] "5001",
       Effect.setRoomZone "5001" "zone_50",
       Effect.echo "[Mapper] Дом [5001]"] :=
  (C2_theorem apiQuiet ⟨some "5001", some "Дом", some ["north"], some "north"⟩
      "north" "5001" "Дом" ["north"] rfl rfl rfl rfl
      (by decide) (by decide) (by decide)).2.1 ⟨some "1"⟩ rfl

/-- Claim C3: for a complete observation with no pending direction, when the
current room id differs from the observed `room_id` and the store search
finds no rooms, `try_create_room` calls `createRoom(room_id, room_name,
0, 0, 0)`; on success it then performs, in order, `setRoomZone`,
`setCurrentRoom` and `addUnexploredExits`; on failure it emits only a
diagnostic log entry and makes no further store call. -/
theorem C3_theorem (api : Api) (s : MapperState) (id nm : String)
    (ex : List String)
    (h1 : s.pending_room_id = some id) (h2 : s.pending_room_name = some nm)
    (h3 : s.pending_exits = some ex) (hd : s.last_direction = none)
    (hne1 : id ≠ "") (hne2 : nm ≠ "") (hne3 : ex ≠ [])
    (hcur : currentIdOf api ≠ some id)
    (hs : roomsCount (api.searchRooms id) = 0) :
    (api.createRoom id nm 0 0 0 = true →
      storeCalls (try_create_room api s).2 =
        [Effect.getCurrentRoom,
         Effect.searchRooms id,
         Effect.createRoom id nm 0 0 0,
         Effect.setRoomZone id ("zone_" ++ toString (zoneId id)),
         Effect.setCurrentRoom id,
         Effect.addUnexploredExits id ex]) ∧
    (api.createRoom id nm 0 0 0 = false →
      storeCalls (try_create_room api s).2 =
        [Effect.getCurrentRoom,
         Effect.searchRooms id,
         Effect.createRoom id nm 0 0 0] ∧
      (try_create_room api s).2 =
        [Effect.log (tcrLog s),
         Effect.log "[PY] Initial room case",
         Effect.getCurrentRoom,
         Effect.log ("[PY] current_id=" ++ pyStrO (currentIdOf api) ++
            " room_id=" ++ id),
         Effect.searchRooms id,
         Effect.log ("[PY] search_rooms(" ++ id ++ ") found " ++
            toString (roomsCount (api.searchRooms id))),
         Effect.log ("[PY] Creating new room: " ++ id),
         Effect.createRoom id nm 0 0 0,
         Effect.log "[PY] create_room returned false"]) := by
  cases hc : api.createRoom id nm 0 0 0 <;>
    (unfold try_create_room
     simp [h1, h2, h3, hd, hne1, hne2, hne3, hcur, hs, hc, truthyS, truthyL,
       List.length_pos, storeCalls, List.filter, Effect.isStoreCall])

theorem C3_witness :
    storeCalls (try_create_room apiQuiet
        ⟨some "5001", some "Дом", some ["north", "south"], none⟩).2 =
      [Effect.getCurrentRoom,
       Effect.searchRooms "5001",
       Effect.createRoom "5001" "Дом" 0 0 0,
       Effect.setRoomZone "5001" "zone_50",
       Effect.setCurrentRoom "5001",
       Effect.addUnexploredExits "5001" ["north", "south"]] :=
  (C3_theorem apiQuiet ⟨some "5001", some "Дом", some ["north", "south"], none⟩
      "5001" "Дом" ["north", "south"] rfl rfl rfl rfl
      (by decide) (by decide) (by decide) (by decide) rfl).1 rfl

/-- A quiet api whose search finds room "5001". -/
def apiFound : Api :=
  { apiQuiet with searchRooms := fun _ => some [⟨some "5001"⟩] }

/-- Claim C10: in the resync path, when the search finds an existing room,
the engine sets it current and forwards the observed exits but never sets
its zone label; moreover a `setRoomZone` call can appear in a
`try_create_room` trace only when the movement call succeeded or the create
call succeeded. -/
theorem C10_theorem (api : Api) (s : MapperState) (id nm : String)
    (ex : List String)
    (h1 : s.pending_room_id = some id) (h2 : s.pending_room_name = some nm)
    (h3 : s.pending_exits = some ex) (hd : s.last_direction = none)
    (hne1 : id ≠ "") (hne2 : nm ≠ "") (hne3 : ex ≠ [])
    (hcur : currentIdOf api ≠ some id)
    (hs : roomsCount (api.searchRooms id) ≠ 0) :
    storeCalls (try_create_room api s).2 =
      [Effect.getCurrentRoom,
       Effect.searchRooms id,
       Effect.setCurrentRoom id,
       Effect.addUnexploredExits id ex] ∧
    (∀ rid z, Effect.setRoomZone rid z ∉ (try_create_room api s).2) ∧
    (∀ (api2 : Api) (s2 : MapperState) (rid z : String),
      Effect.setRoomZone rid z ∈ (try_create_room api2 s2).2 →
      (∃ d, s2.last_direction = some d ∧
        (api2.handleMovement d (s2.pending_room_name.getD "")
          (s2.pending_exits.getD []) (s2.pending_room_id.getD "")).isSome
            = true) ∨
      (s2.last_direction = none ∧
        api2.createRoom (s2.pending_room_id.getD "")
          (s2.pending_room_name.getD "") 0 0 0 = true)) := by
  refine ⟨?_, ?_, ?_⟩
  · unfold try_create_room
    simp [h1, h2, h3, hd, hne1, hne2, hne3, hcur, hs, truthyS, truthyL,
      List.length_pos, storeCalls, List.filter, Effect.isStoreCall]
  · intro rid z
    unfold try_create_room
    simp [h1, h2, h3, hd, hne1, hne2, hne3, hcur, hs, truthyS, truthyL,
      List.length_pos]
  · intro api2 s2 rid z hmem
    unfold try_create_room at hmem
    by_cases ha : truthyS s2.pending_room_id = false
    · cases hdb : api2.debugOn <;> simp [ha, debugE, hdb] at hmem
    by_cases hb : truthyS s2.pending_room_name = false
    · cases hdb : api2.debugOn <;> simp [ha, hb, debugE, hdb] at hmem
    by_cases hc : truthyL s2.pending_exits = false
    · cases hdb : api2.debugOn <;> simp [ha, hb, hc, debugE, hdb] at hmem
    cases hdir : s2.last_direction with
    | some d =>
        left
        refine ⟨d, rfl, ?_⟩
        cases hm : api2.handleMovement d (s2.pending_room_name.getD "")
            (s2.pending_exits.getD []) (s2.pending_room_id.getD "") with
        | some r => simp
        | none =>
            cases hdb : api2.debugOn <;>
              simp [ha, hb, hc, hdir, hm, debugE, hdb] at hmem
    | none =>
        right
        cases hcreate : api2.createRoom (s2.pending_room_id.getD "")
            (s2.pending_room_name.getD "") 0 0 0 with
        | true => exact ⟨rfl, rfl⟩
        | false =>
            by_cases hcur2 :
                currentIdOf api2 = some (s2.pending_room_id.getD "")
            · simp [ha, hb, hc, hdir, hcur2] at hmem
            · by_cases hcount :
                  roomsCount (api2.searchRooms (s2.pending_room_id.getD ""))
                    = 0
              · simp [ha, hb, hc, hdir, hcur2, hcount, hcreate] at hmem
              · simp [ha, hb, hc, hdir, hcur2, hcount] at hmem

theorem C10_witness :
    storeCalls (try_create_room apiFound
        ⟨some "5001", some "Дом", some ["north"], none⟩).2 =
      [Effect.getCurrentRoom,
       Effect.searchRooms "5001",
       Effect.setCurrentRoom "5001",
       Effect.addUnexploredExits "5001" ["north"]] :=
  (C10_theorem apiFound ⟨some "5001", some "Дом", some ["north"], none⟩
      "5001" "Дом" ["north"] rfl rfl rfl rfl
      (by decide) (by decide) (by decide) (by decide) (by decide)).1

/-- Claim C5: for every movement announcement, the captured phrase is
lower-cased and looked up in the phrase table; on a hit `last_direction` is
set to the canonical direction and the three room fields are cleared; on a
miss no accumulator field changes. -/
theorem C5_theorem (s : MapperState) (g : String) :
    (∀ d, directions (pyLower g) = some d →
      on_movement_trigger s (some g) =
        (⟨none, none, none, some d⟩,
         [Effect.log ("[PY] movement callback, dir=" ++ g)])) ∧
    (directions (pyLower g) = none →
      on_movement_trigger s (some g) =
        (s, [Effect.log ("[PY] movement callback, dir=" ++ g)])) := by
  constructor
  · intro d hd
    by_cases hg : g = ""
    · subst hg
      rw [show directions (pyLower "") = none from rfl] at hd
      exact Option.noConfusion hd
    · unfold on_movement_trigger
      simp [truthyS, hg, hd, pyStrO]
  · intro hnone
    unfold on_movement_trigger
    by_cases hg : g = ""
    · subst hg
      simp [truthyS, pyStrO]
    · simp [truthyS, hg, hnone, pyStrO]

theorem C5_witness :
    on_movement_trigger ⟨some "1", some "Дом", some ["north"], none⟩
        (some "север") =
      (⟨none, none, none, some "north"⟩,
       [Effect.log "[PY] movement callback, dir=север"]) :=
  (C5_theorem ⟨some "1", some "Дом", some ["north"], none⟩ "север").1
    "north" rfl

/-- Claim C7: the room trigger rejects the captured (title, identifier) pair
with no accumulator change if either half is missing or empty, if the title
trims to the empty string, or if the trimmed title starts with one of
`:`, `|`, `-`, ` `; otherwise it records the trimmed title and the
identifier and invokes the commit engine on the updated accumulator. -/
theorem C7_theorem (api : Api) (s : MapperState) (g1 g2 : Option String) :
    (truthyS g1 = false ∨ truthyS g2 = false →
      on_room_trigger api s g1 g2 = (s, [Effect.log (roomCbLog g1 g2)])) ∧
    (∀ nm, g1 = some nm → pyStrip nm = "" →
      on_room_trigger api s g1 g2 = (s, [Effect.log (roomCbLog g1 g2)])) ∧
    (∀ nm, g1 = some nm →
      (pyStrip nm).data.headD ' ' ∈ [':', '|', '-', ' '] →
      on_room_trigger api s g1 g2 = (s, [Effect.log (roomCbLog g1 g2)])) ∧
    (∀ nm rid, g1 = some nm → g2 = some rid → rid ≠ "" →
      pyStrip nm ≠ "" →
      (pyStrip nm).data.headD ' ' ∉ [':', '|', '-', ' '] →
      on_room_trigger api s g1 g2 =
        ((try_create_room api
            { s with pending_room_name := some (pyStrip nm),
                     pending_room_id := some rid }).1,
         Effect.log (roomCbLog g1 g2) ::
           (try_create_room api
              { s with pending_room_name := some (pyStrip nm),
                       pending_room_id := some rid }).2)) := by
  refine ⟨?_, ?_, ?_, ?_⟩
  · intro h
    unfold on_room_trigger
    rcases h with h | h <;> simp [h]
  · intro nm h1 hstrip
    subst h1
    by_cases hg2 : truthyS g2 = false
    · simp [on_room_trigger, hg2]
    · by_cases hnm : nm = ""
      · simp [on_room_trigger, truthyS, hnm]
      · simp [on_room_trigger, truthyS, hnm, hg2, hstrip]
  · intro nm h1 hhead
    subst h1
    by_cases hg2 : truthyS g2 = false
    · simp [on_room_trigger, hg2]
    · by_cases hnm : nm = ""
      · simp [on_room_trigger, truthyS, hnm]
      · by_cases hstrip : pyStrip nm = ""
        · simp [on_room_trigger, truthyS, hnm, hg2, hstrip]
        · simp only [List.mem_cons, List.mem_singleton, List.not_mem_nil,
            or_false, List.headD_eq_head?] at hhead
          rcases hhead with h | h | h | h <;>
            simp [on_room_trigger, truthyS, hnm, hg2, hstrip, h]
  · intro nm rid h1 h2 hrid hstrip hhead
    subst h1
    subst h2
    have hnm : nm ≠ "" := by
      intro h
      subst h
      exact hstrip rfl
    simp only [List.mem_cons, List.mem_singleton, List.not_mem_nil,
      or_false, not_or, List.headD_eq_head?] at hhead
    unfold on_room_trigger
    simp [truthyS, hnm, hrid, hstrip, hhead.1, hhead.2.1, hhead.2.2.1,
      hhead.2.2.2]

theorem C7_witness :
    on_room_trigger apiQuiet emptyState (some " Дом ") (some "5001") =
      (⟨some "5001", some "Дом", none, none⟩,
       [Effect.log "[PY] room callback, groups[1]= Дом  groups[2]=5001",
        Effect.log
          "[PY] try_create_room: room_id=5001 room_name=Дом exits=nil direction=None"]) :=
  (C7_theorem apiQuiet emptyState (some " Дом ") (some "5001")).2.2.2
    " Дом " "5001" rfl rfl (by decide) (by decide) (by decide)

/-- One decoding step keeps the exits list duplicate-free. -/
lemma exitStep_fst_nodup (acc : List String × Bool) (c : Char)
    (h : acc.1.Nodup) : (exitStep acc c).1.Nodup := by
  unfold exitStep
  by_cases h1 : c = '('
  · simpa [h1] using h
  by_cases h2 : c = ')'
  · simpa [h1, h2] using h
  cases hec : exit_chars c with
  | none => simpa [h1, h2, hec] using h
  | some d =>
      by_cases hmem : d ∈ acc.1
      · simpa [h1, h2, hec, hmem] using h
      · have hd : (acc.1 ++ [d]).Nodup :=
          List.Nodup.append h (List.nodup_singleton d)
            (by simpa [List.disjoint_singleton] using hmem)
        simpa [h1, h2, hec, hmem] using hd

/-- The whole decoding fold keeps the exits list duplicate-free. -/
lemma foldl_exitStep_nodup (l : List Char) :
    ∀ acc : List String × Bool, acc.1.Nodup →
      (l.foldl exitStep acc).1.Nodup := by
  induction l with
  | nil => intro acc h; exact h
  | cons c cs ih => intro acc h; exact ih _ (exitStep_fst_nodup acc c h)

/-- Directions produced by one decoding step come from the accumulator or
from the glyph table at the scanned character. -/
lemma exitStep_fst_mem (acc : List String × Bool) (c : Char) (d : String)
    (h : d ∈ (exitStep acc c).1) : d ∈ acc.1 ∨ exit_chars c = some d := by
  unfold exitStep at h
  by_cases h1 : c = '('
  · left; simpa [h1] using h
  by_cases h2 : c = ')'
  · left; simpa [h1, h2] using h
  cases hec : exit_chars c with
  | none => left; simpa [h1, h2, hec] using h
  | some e =>
      by_cases hmem : e ∈ acc.1
      · left; simpa [h1, h2, hec, hmem] using h
      · simp [h1, h2, hec, hmem] at h
        rcases h with h | h
        · exact Or.inl h
        · right; simp [hec, h]

/-- Directions produced by the decoding fold come from the accumulator or
from the glyph table at some scanned character. -/
lemma foldl_exitStep_mem (l : List Char) :
    ∀ (acc : List String × Bool) (d : String),
      d ∈ (l.foldl exitStep acc).1 →
      d ∈ acc.1 ∨ ∃ c, c ∈ l ∧ exit_chars c = some d := by
  induction l with
  | nil => intro acc d h; exact Or.inl h
  | cons c cs ih =>
      intro acc d h
      rcases ih (exitStep acc c) d h with h1 | ⟨c1, hc1, he1⟩
      · rcases exitStep_fst_mem acc c d h1 with h2 | h2
        · exact Or.inl h2
        · exact Or.inr ⟨c, List.mem_cons_self c cs, h2⟩
      · exact Or.inr ⟨c1, List.mem_cons_of_mem c hc1, he1⟩

/-- Claim C6 as frozen is false at its own example: `v` (down) is scanned
before `^` (up), so first-seen order puts `down` before `up`, not after. -/
theorem C6_counterexample :
    decode_exits "СЮВv^>" = ["north", "south", "east", "down", "up"] ∧
    decode_exits "СЮВv^>" ≠ ["north", "south", "east", "up", "down"] := by
  constructor <;> decide

/-- Claim C6 (amended): the decoder scans left to right, `(` and `)` only
drive the inside-parenthesis flag and never map to a direction, every other
character is looked up in the glyph table with misses ignored, hits are
appended only if not already present (so the result is duplicate-free, in
first-seen order); "СЮВv^>" decodes to [north, south, east, down, up] and
"(С)В(Ю)>" decodes to [north, east, south]. -/
theorem C6_theorem :
    decode_exits "СЮВv^>" = ["north", "south", "east", "down", "up"] ∧
    decode_exits "(С)В(Ю)>" = ["north", "east", "south"] ∧
    exit_chars '(' = none ∧
    exit_chars ')' = none ∧
    (∀ s, (decode_exits s).Nodup) ∧
    (∀ s d, d ∈ decode_exits s → ∃ c, c ∈ s.data ∧ exit_chars c = some d) := by
  refine ⟨by decide, by decide, by decide, by decide, ?_, ?_⟩
  · intro s
    exact foldl_exitStep_nodup s.data ([], false) List.nodup_nil
  · intro s d h
    rcases foldl_exitStep_mem s.data ([], false) d h with h1 | ⟨c, hc, he⟩
    · exact absurd h1 (List.not_mem_nil d)
    · exact ⟨c, hc, he⟩

theorem C6_witness :
    ∃ c, c ∈ ("СЮВv^>" : String).data ∧ exit_chars c = some "down" :=
  C6_theorem.2.2.2.2.2 "СЮВv^>" "down" (by decide)

/-- Claim C9: zone derivation is total — the zone id is `int(room_id) // 100`
when `room_id` parses as an integer and `0` otherwise — and for the
non-numeric id "abc" the engine's movement commit issues
`setRoomZone("abc", "zone_0")` rather than raising. -/
theorem C9_theorem :
    (∀ id n, pyInt id = some n → zoneId id = Int.fdiv n 100) ∧
    (∀ id, pyInt id = none → zoneId id = 0) ∧
    pyInt "abc" = none ∧
    zoneId "abc" = 0 ∧
    Effect.setRoomZone "abc" "zone_0" ∈
      (try_create_room apiQuiet
        ⟨some "abc", some "Дом", some ["north"], some "north"⟩).2 := by
  refine ⟨?_, ?_, by decide, by decide, by decide⟩
  · intro id n h
    unfold zoneId
    rw [h]
  · intro id h
    unfold zoneId
    rw [h]

theorem C9_witness : zoneId "5001" = Int.fdiv 5001 100 :=
  C9_theorem.1 "5001" 5001 (by decide)

/-- On an incomplete accumulator `try_create_room` is a no-op: state
unchanged and no store call issued. -/
lemma tcr_incomplete (api : Api) (s : MapperState)
    (h : is_complete s = false) :
    (try_create_room api s).1 = s ∧
    storeCalls (try_create_room api s).2 = [] := by
  unfold is_complete at h
  unfold try_create_room
  by_cases ha : truthyS s.pending_room_id = false
  · simp [ha, storeCalls_cons, storeCalls_debugE, Effect.isStoreCall]
  by_cases hb : truthyS s.pending_room_name = false
  · simp [ha, hb, storeCalls_cons, storeCalls_debugE, Effect.isStoreCall]
  by_cases hc : truthyL s.pending_exits = false
  · simp [ha, hb, hc, storeCalls_cons, storeCalls_debugE, Effect.isStoreCall]
  simp only [Bool.not_eq_false] at ha hb hc
  rw [ha, hb, hc] at h
  simp at h

/-- On a complete accumulator `try_create_room` always issues at least one
store call (`handleMovement` when a direction is pending, the current-room
query otherwise). -/
lemma tcr_complete_store_ne (api : Api) (s : MapperState)
    (h : is_complete s = true) :
    storeCalls (try_create_room api s).2 ≠ [] := by
  unfold is_complete at h
  simp only [Bool.and_eq_true] at h
  obtain ⟨⟨ha, hb⟩, hc⟩ := h
  cases hdir : s.last_direction with
  | some d =>
      refine List.ne_nil_of_mem
        (a := Effect.handleMovement d (s.pending_room_name.getD "")
          (s.pending_exits.getD []) (s.pending_room_id.getD "")) ?_
      unfold try_create_room
      simp [ha, hb, hc, hdir, storeCalls, List.mem_filter,
        Effect.isStoreCall]
  | none =>
      refine List.ne_nil_of_mem (a := Effect.getCurrentRoom) ?_
      unfold try_create_room
      simp [ha, hb, hc, hdir, storeCalls, List.mem_filter,
        Effect.isStoreCall]

/-- Under the data-model invariant that recorded ids and names are never the
empty string, the code's truthiness-based completeness check coincides with
"room_id present, room_name present, exits present and non-empty". -/
lemma is_complete_iff (s : MapperState)
    (hid : s.pending_room_id ≠ some "")
    (hnm : s.pending_room_name ≠ some "") :
    is_complete s = true ↔
      (s.pending_room_id.isSome = true ∧ s.pending_room_name.isSome = true ∧
       ∃ ex, s.pending_exits = some ex ∧ ex ≠ []) := by
  unfold is_complete
  cases hH : s.pending_room_id with
  | none => simp [truthyS]
  | some a =>
      cases hN : s.pending_room_name with
      | none => simp [truthyS]
      | some b =>
          cases hE : s.pending_exits with
          | none => simp [truthyS, truthyL]
          | some l =>
              rw [hH] at hid
              rw [hN] at hnm
              have ha : a ≠ "" := fun h => hid (by rw [h])
              have hb : b ≠ "" := fun h => hnm (by rw [h])
              by_cases hl : l = [] <;> simp [truthyS, truthyL, ha, hb, hl]

/-- Claim C1 as frozen is false: the movement callback mutates the Pending
Observation but does not invoke `try_create_room`.  On a state where the
movement phrase "север" is recorded, the callback's whole api trace is its
single entry log, whereas any invocation of `try_create_room` begins with
the engine's own unconditional entry log (second conjunct: the trace such an
invocation would have produced on the mutated state). -/
theorem C1_counterexample :
    (on_movement_trigger ⟨some "5001", some "Дом", some ["north"], none⟩
        (some "север")).2 =
      [Effect.log "[PY] movement callback, dir=север"] ∧
    (try_create_room apiQuiet
        (on_movement_trigger ⟨some "5001", some "Дом", some ["north"], none⟩
          (some "север")).1).2 =
      [Effect.log
        "[PY] try_create_room: room_id=None room_name=None exits=nil direction=north"] := by
  constructor <;> decide

/-- Claim C1 (amended): `try_create_room` is invoked after the mutations
performed by the room and exits callbacks (its result state and trace are
the tail of theirs), but not by the movement callback; whenever it runs on
an incomplete accumulator it issues no store call and leaves all four
fields unchanged; given the data-model invariant that recorded ids and
names are never empty strings, it proceeds to a commit exactly when
`room_id`, `room_name` and a non-empty `exits` list are all present, and
`pending_direction` plays no role in completeness. -/
theorem C1_theorem (api : Api) (s : MapperState)
    (hid : s.pending_room_id ≠ some "")
    (hnm : s.pending_room_name ≠ some "") :
    (is_complete s = false →
      (try_create_room api s).1 = s ∧
      storeCalls (try_create_room api s).2 = []) ∧
    ((s.pending_room_id.isSome = true ∧ s.pending_room_name.isSome = true ∧
      ∃ ex, s.pending_exits = some ex ∧ ex ≠ []) ↔
      storeCalls (try_create_room api s).2 ≠ []) ∧
    is_complete { s with last_direction := none } = is_complete s ∧
    (∀ g : Option String, truthyS g = true →
      (on_exits_trigger api s g).1 =
        (try_create_room api
          { s with pending_exits := some (decode_exits (g.getD "")) }).1 ∧
      List.IsSuffix
        (try_create_room api
          { s with pending_exits := some (decode_exits (g.getD "")) }).2
        (on_exits_trigger api s g).2) ∧
    (∀ nm rid : String, rid ≠ "" → pyStrip nm ≠ "" →
      (pyStrip nm).data.headD ' ' ∉ [':', '|', '-', ' '] →
      (on_room_trigger api s (some nm) (some rid)).1 =
        (try_create_room api
          { s with pending_room_name := some (pyStrip nm),
                   pending_room_id := some rid }).1 ∧
      List.IsSuffix
        (try_create_room api
          { s with pending_room_name := some (pyStrip nm),
                   pending_room_id := some rid }).2
        (on_room_trigger api s (some nm) (some rid)).2) := by
  refine ⟨fun h => tcr_incomplete api s h, ?_, rfl, ?_, ?_⟩
  · rw [← is_complete_iff s hid hnm]
    constructor
    · exact fun h => tcr_complete_store_ne api s h
    · intro h
      by_cases hcomp : is_complete s = true
      · exact hcomp
      · exact absurd (tcr_incomplete api s (by simpa using hcomp)).2 h
  · intro g hg
    unfold on_exits_trigger
    simp only [hg, Bool.true_eq_false, if_false, ite_false]
    refine ⟨by simp, ?_⟩
    exact (List.suffix_append _ _).trans (List.suffix_cons _ _)
  · intro nm rid hrid hstrip hhead
    have hnm2 : nm ≠ "" := by
      intro h
      subst h
      exact hstrip rfl
    simp only [List.mem_cons, List.mem_singleton, List.not_mem_nil,
      or_false, not_or, List.headD_eq_head?] at hhead
    unfold on_room_trigger
    simp [truthyS, hnm2, hrid, hstrip, hhead.1, hhead.2.1, hhead.2.2.1,
      hhead.2.2.2]

theorem C1_witness :
    storeCalls (try_create_room apiQuiet
      ⟨some "5001", some "Дом", some ["north"], none⟩).2 ≠ [] :=
  (C1_theorem apiQuiet ⟨some "5001", some "Дом", some ["north"], none⟩
      (by decide) (by decide)).2.1.mp
    ⟨rfl, rfl, ⟨["north"], rfl, by decide⟩⟩

end Automapper
